import Mathlib

/-
Verification development for the `mandelbrodin` repository: two Blender
automation scripts, `create_3d_from_heightmap.py` (scene builder) and
`render_preview.py` (preview renderer).

The host application's document (the Blender "scene"/"data" state) is
embedded shallowly as the structure `BlendDoc`: lists of objects, mesh
datablocks, materials, images and textures, plus the scene's world,
render settings, active-camera reference and save path.  Each Python
function of the scripts becomes a Lean function on this state.  Host
operators that the scripts call (`bpy.ops.*`) are modelled by their
documented effect on the state; where a claim depends on such an
operator (uniform edge subdivision, look-at tracking) the model is
written out explicitly and noted in the doc comment.

Numeric scene parameters are carried as rationals (the scripts only use
exact decimal constants); the camera look-at orientation, which involves
normalisation, is modelled over the reals.
-/

/-- A 3-component vector of rationals, used for object locations,
rotation-euler triples and direction vectors in the document model. -/
structure Vec3 where
  x : ℚ
  y : ℚ
  z : ℚ
deriving DecidableEq, Repr

/-- Componentwise subtraction, modelling mathutils vector subtraction
(`target_object.location - camera.location`). -/
def Vec3.sub (a b : Vec3) : Vec3 :=
  ⟨a.x - b.x, a.y - b.y, a.z - b.z⟩

/-- An RGBA color with rational components. -/
structure Color4 where
  r : ℚ
  g : ℚ
  b : ℚ
  a : ℚ
deriving DecidableEq, Repr

/-- A file path, split into the directory part and the final component,
modelling `pathlib.Path` values `script_dir / NAME` as built by both
scripts. -/
structure HostPath where
  dir : String
  base : String
deriving DecidableEq, Repr

/-- Models `os.path.basename` on the paths the scripts build. -/
def HostPath.basename (p : HostPath) : String := p.base

/-- An image datablock (`bpy.data.images` entry); the scripts only ever
use its identity/name. -/
structure Image where
  name : String
deriving DecidableEq, Repr

/-- A texture datablock (`bpy.data.textures` entry), as created by
`bpy.data.textures.new(..., type='IMAGE')` with its `image` slot. -/
structure Texture where
  name : String
  ttype : String
  image : Option Image
deriving DecidableEq, Repr

/-- A shader node of a material node tree: its bpy type string, its
editor location, the image it wraps (image-texture nodes only) and the
scalar input socket defaults the script assigns. -/
structure ShaderNode where
  ntype : String
  location : ℚ × ℚ
  image : Option Image
  inputDefaults : List (String × ℚ)
deriving DecidableEq, Repr

/-- A link of a material node tree (`links.new(from_socket, to_socket)`),
recorded by node type and socket names: each node type occurs at most
once in the graph the builder constructs. -/
structure NodeLink where
  fromNode : String
  fromSocket : String
  toNode : String
  toSocket : String
deriving DecidableEq, Repr

/-- A material datablock with its node tree. -/
structure Material where
  name : String
  useNodes : Bool
  nodes : List ShaderNode
  links : List NodeLink
deriving DecidableEq, Repr

/-- A mesh datablock.  The only meshes in play are the plane primitive
and its uniform subdivisions, so the geometry is carried as `side`, the
number of quads per side of the uniform grid (`side = 1` for the fresh
plane), together with the extent of the square and the material slots. -/
structure MeshData where
  name : String
  size : ℚ
  side : Nat
  materials : List String
deriving DecidableEq, Repr

/-- The vertex list of a uniform grid mesh: one vertex per lattice point
of the `(side+1) × (side+1)` grid. -/
def MeshData.vertices (m : MeshData) : List (ℚ × ℚ) :=
  (List.range (m.side + 1)).flatMap fun i : ℕ =>
    (List.range (m.side + 1)).map fun j : ℕ => ((i : ℚ), (j : ℚ))

/-- An object modifier: the builder adds a subdivision-surface modifier
and a displacement modifier to the plane. -/
inductive Modifier where
  | subsurf (name : String) (levels renderLevels : Nat)
  | displace (name : String) (strength midLevel : ℚ)
      (texture : Option Texture) (textureCoords : String)
deriving DecidableEq, Repr

/-- Object payload: mesh objects reference their mesh datablock by name
and carry their modifier stack; cameras carry the tracking direction the
script computed plus lens/clip settings; lights carry type, energy and
rotation. -/
inductive ObjData where
  | mesh (meshName : String) (modifiers : List Modifier)
  | camera (trackDirection : Vec3) (lens clipEnd : ℚ)
  | light (ltype : String) (energy : ℚ) (rotationEuler : Vec3)
deriving DecidableEq, Repr

/-- A scene object. -/
structure SceneObject where
  name : String
  location : Vec3
  data : ObjData
deriving DecidableEq, Repr

/-- The scene's world entry (`bpy.context.scene.world`) with the
background-node settings the builder touches. -/
structure World where
  useNodes : Bool
  bgColor : Color4
  bgStrength : ℚ
deriving DecidableEq, Repr

/-- Render settings of the scene (`scene.render`, `scene.cycles`,
`scene.eevee`, output image settings). -/
structure RenderSettings where
  engine : String
  cyclesSamples : Nat
  eeveeSamples : Nat
  resolutionX : Nat
  resolutionY : Nat
  resolutionPercentage : Nat
  filepath : String
  fileFormat : String
  colorMode : String
deriving DecidableEq, Repr

/-- The whole document state the two scripts read and write. -/
structure BlendDoc where
  objects : List SceneObject
  meshes : List MeshData
  materials : List Material
  images : List Image
  textures : List Texture
  world : World
  sceneCamera : Option String
  render : RenderSettings
  savedAs : Option String
deriving DecidableEq, Repr

/- Configuration constants of `create_3d_from_heightmap.py`. -/

def IMAGE_FILENAME : String := "mandelbrot2d.png"

def SUBDIVISION_LEVEL : Nat := 8

def DISPLACEMENT_STRENGTH : ℚ := 2

def PLANE_SIZE : ℚ := 10

/- Configuration constants of `render_preview.py`. -/

def OUTPUT_FILENAME : String := "mandelbrot_3d_preview.png"

def RENDER_SAMPLES : Nat := 64

/-- Models `clear_scene`: selects and deletes every object, then removes every
mesh and every material datablock.  Deleting all objects also clears the
scene's active-camera reference (it pointed at a deleted object).
Images, textures, the world and the render settings are untouched. -/
def clear_scene (d : BlendDoc) : BlendDoc :=
  { d with objects := [], meshes := [], materials := [], sceneCamera := none }

/-- Models `load_image`: returns `none` after printing a diagnostic when the
file does not exist; otherwise reuses an already-loaded image of the
same basename or loads a fresh one.  The filesystem is passed in as the
predicate `fsExists`.  The third component is the list of lines printed
on the error path. -/
def load_image (fsExists : HostPath → Bool) (filepath : HostPath)
    (d : BlendDoc) : Option Image × BlendDoc × List String :=
  if fsExists filepath then
    let imageName := filepath.basename
    match d.images.find? (fun i => i.name == imageName) with
    | some image => (some image, d, [])
    | none =>
        let image : Image := ⟨imageName⟩
        (some image, { d with images := d.images ++ [image] }, [])
  else
    (none, d, ["Error: Image file not found: " ++ filepath.dir ++ "/" ++ filepath.base])

/-- Modelled from the host operator `bpy.ops.mesh.subdivide()` applied
with every element selected: one uniform edge-subdivision pass splits
every edge and every quad, doubling the number of quads per side of the
uniform grid. -/
def meshSubdivide (m : MeshData) : MeshData :=
  { m with side := 2 * m.side }

/-- The builder's subdivision loop `for _ in range(n): bpy.ops.mesh.subdivide()`. -/
def subdivideLoop : Nat → MeshData → MeshData
  | 0, m => m
  | n + 1, m => subdivideLoop n (meshSubdivide m)

/-- Models `create_heightmap_mesh`: adds the plane primitive at the origin,
renames the object, adds the subdivision-surface modifier (levels 2,
render levels 3), runs the edit-mode subdivision loop with everything
selected, creates the material with its node tree (output, principled
BSDF with metallic 0.3 and roughness 0.4, image texture wrapping the
input image, color ramp; two links), appends the material to the mesh,
then adds the displacement modifier with the given strength, mid-level
0, a fresh IMAGE texture wrapping the same image, and UV texture
coordinates.  Returns the plane object together with the updated
document. -/
def create_heightmap_mesh (image : Image) (subdivision_level : Nat)
    (displacement_strength plane_size : ℚ) (d : BlendDoc) :
    SceneObject × BlendDoc :=
  let meshData0 : MeshData := ⟨"Plane", plane_size, 1, []⟩
  let meshData1 : MeshData := subdivideLoop subdivision_level meshData0
  let node_output : ShaderNode := ⟨"ShaderNodeOutputMaterial", (400, 0), none, []⟩
  let node_bsdf : ShaderNode :=
    ⟨"ShaderNodeBsdfPrincipled", (0, 0), none,
      [("Metallic", 3/10), ("Roughness", 2/5)]⟩
  let node_image : ShaderNode := ⟨"ShaderNodeTexImage", (-400, 0), some image, []⟩
  let node_colorramp : ShaderNode := ⟨"ShaderNodeValToRGB", (-200, -300), none, []⟩
  let link_color : NodeLink :=
    ⟨"ShaderNodeTexImage", "Color", "ShaderNodeBsdfPrincipled", "Base Color"⟩
  let link_surface : NodeLink :=
    ⟨"ShaderNodeBsdfPrincipled", "BSDF", "ShaderNodeOutputMaterial", "Surface"⟩
  let material : Material :=
    ⟨"Mandelbrot_Material", true,
      [node_output, node_bsdf, node_image, node_colorramp],
      [link_color, link_surface]⟩
  let meshData : MeshData := { meshData1 with materials := ["Mandelbrot_Material"] }
  let texture : Texture := ⟨"Mandelbrot_Displacement", "IMAGE", some image⟩
  let subsurf : Modifier := .subsurf "Subdivision" 2 3
  let displace : Modifier :=
    .displace "Displace" displacement_strength 0 (some texture) "UV"
  let plane : SceneObject :=
    ⟨"Mandelbrot_Heightmap", ⟨0, 0, 0⟩, .mesh "Plane" [subsurf, displace]⟩
  (plane,
    { d with
        objects := d.objects ++ [plane]
        meshes := d.meshes ++ [meshData]
        materials := d.materials ++ [material]
        textures := d.textures ++ [texture] })

/-- Models `setup_camera`: adds a camera object at `(15, -15, 10)`, computes
the tracking direction `target_object.location - camera.location`,
orients the camera by the host's track-to rotation along that direction
(the orientation itself is analysed over the reals below), makes it the
scene's active camera and sets lens 50 and clip end 1000. -/
def setup_camera (target_object : SceneObject) (d : BlendDoc) :
    SceneObject × BlendDoc :=
  let location : Vec3 := ⟨15, -15, 10⟩
  let direction : Vec3 := target_object.location.sub location
  let camera : SceneObject := ⟨"Camera", location, .camera direction 50 1000⟩
  (camera,
    { d with
        objects := d.objects ++ [camera]
        sceneCamera := some "Camera" })

/-- Models `setup_lighting`: adds the three SUN lights (key, fill, rim) at
fixed locations, energies and rotations. -/
def setup_lighting (d : BlendDoc) : BlendDoc :=
  let key_light : SceneObject :=
    ⟨"Key_Light", ⟨10, -10, 15⟩, .light "SUN" 3 ⟨4/5, 0, 7/10⟩⟩
  let fill_light : SceneObject :=
    ⟨"Fill_Light", ⟨-5, 5, 8⟩, .light "SUN" (3/2) ⟨1, 0, -1/2⟩⟩
  let rim_light : SceneObject :=
    ⟨"Rim_Light", ⟨-10, 10, 5⟩, .light "SUN" 2 ⟨6/5, 0, -2⟩⟩
  { d with objects := d.objects ++ [key_light, fill_light, rim_light] }

/-- Models `setup_world`: enables nodes on the scene world and sets the
background color to dark gray `(0.05, 0.05, 0.05, 1.0)` with strength
`0.3`. -/
def setup_world (d : BlendDoc) : BlendDoc :=
  { d with world := ⟨true, ⟨1/20, 1/20, 1/20, 1⟩, 3/10⟩ }

/-- Models `configure_render_settings`: selects the Cycles engine with 128
samples and sets the output resolution to 1920x1080 at 100 percent. -/
def configure_render_settings (d : BlendDoc) : BlendDoc :=
  { d with
      render := { d.render with
        engine := "CYCLES"
        cyclesSamples := 128
        resolutionX := 1920
        resolutionY := 1080
        resolutionPercentage := 100 } }

/-- Models `main` of the scene builder: clears the scene, loads the image, and
on failure returns early; otherwise builds the heightmap mesh, camera,
lights, world and render settings and saves the document.  Returns the
final document and the error lines printed. -/
def builderMain (fsExists : HostPath → Bool) (script_dir : String)
    (d : BlendDoc) : BlendDoc × List String :=
  let image_path : HostPath := ⟨script_dir, IMAGE_FILENAME⟩
  let d1 := clear_scene d
  match load_image fsExists image_path d1 with
  | (none, d2, log) => (d2, log)
  | (some image, d2, log) =>
      let (plane, d3) :=
        create_heightmap_mesh image SUBDIVISION_LEVEL DISPLACEMENT_STRENGTH
          PLANE_SIZE d2
      let (_camera, d4) := setup_camera plane d3
      let d5 := setup_lighting d4
      let d6 := setup_world d5
      let d7 := configure_render_settings d6
      let d8 := { d7 with savedAs := some (script_dir ++ "/mandelbrot_3d_scene.blend") }
      (d8, log)

/-- Events of a preview-render run: sample-count assignments and
synchronous render-to-file calls (each render event snapshots the
render settings in force at the call). -/
inductive RenderEvent where
  | setSamples (n : Nat)
  | renderToFile (settings : RenderSettings)
deriving DecidableEq, Repr

/-- Models `render_preview`: sets the output file path, assigns the Cycles
sample count only when the scene's engine is Cycles (any other engine
only gets a printed message), sets PNG output with RGB color mode, and
performs a single synchronous render call.  Returns the final document
and the trace of sample assignments and render calls. -/
def render_preview (script_dir : String) (d : BlendDoc) :
    BlendDoc × List RenderEvent :=
  let output_path := script_dir ++ "/" ++ OUTPUT_FILENAME
  let r1 := { d.render with filepath := output_path }
  let (r2, events1) :=
    if r1.engine == "CYCLES" then
      ({ r1 with cyclesSamples := RENDER_SAMPLES },
        [RenderEvent.setSamples RENDER_SAMPLES])
    else
      (r1, [])
  let r3 := { r2 with fileFormat := "PNG", colorMode := "RGB" }
  ({ d with render := r3 }, events1 ++ [RenderEvent.renderToFile r3])

/-- Number of mesh objects in a document. -/
def BlendDoc.meshObjectCount (d : BlendDoc) : Nat :=
  (d.objects.filter fun o => match o.data with
    | .mesh _ _ => true
    | _ => false).length

/-- Number of camera objects in a document. -/
def BlendDoc.cameraObjectCount (d : BlendDoc) : Nat :=
  (d.objects.filter fun o => match o.data with
    | .camera _ _ _ => true
    | _ => false).length

/-- Number of light objects in a document. -/
def BlendDoc.lightObjectCount (d : BlendDoc) : Nat :=
  (d.objects.filter fun o => match o.data with
    | .light _ _ _ => true
    | _ => false).length

/- Concrete components of the document the builder produces on the
success path; these are spelled out once so that several results below
can refer to them. -/

/-- The image datablock the builder ends up using: whether `load_image`
reuses an existing datablock or loads a fresh one, its name is the
image basename, and an image datablock is determined by its name. -/
def builtImage : Image := ⟨IMAGE_FILENAME⟩

/-- The displacement texture created by the builder. -/
def builtTexture : Texture := ⟨"Mandelbrot_Displacement", "IMAGE", some builtImage⟩

/-- The material the builder creates, with its four nodes and two links. -/
def builtMaterial : Material :=
  ⟨"Mandelbrot_Material", true,
    [⟨"ShaderNodeOutputMaterial", (400, 0), none, []⟩,
     ⟨"ShaderNodeBsdfPrincipled", (0, 0), none, [("Metallic", 3/10), ("Roughness", 2/5)]⟩,
     ⟨"ShaderNodeTexImage", (-400, 0), some builtImage, []⟩,
     ⟨"ShaderNodeValToRGB", (-200, -300), none, []⟩],
    [⟨"ShaderNodeTexImage", "Color", "ShaderNodeBsdfPrincipled", "Base Color"⟩,
     ⟨"ShaderNodeBsdfPrincipled", "BSDF", "ShaderNodeOutputMaterial", "Surface"⟩]⟩

/-- The plane's mesh datablock after the subdivision loop and the
material append. -/
def builtMesh : MeshData :=
  { subdivideLoop SUBDIVISION_LEVEL ⟨"Plane", PLANE_SIZE, 1, []⟩ with
      materials := ["Mandelbrot_Material"] }

/-- The plane object with its two modifiers. -/
def builtPlane : SceneObject :=
  ⟨"Mandelbrot_Heightmap", ⟨0, 0, 0⟩,
    .mesh "Plane"
      [.subsurf "Subdivision" 2 3,
       .displace "Displace" DISPLACEMENT_STRENGTH 0 (some builtTexture) "UV"]⟩

/-- The camera object: placed at `(15, -15, 10)` and tracking toward
the plane at the origin, direction `(-15, 15, -10)`. -/
def builtCamera : SceneObject :=
  ⟨"Camera", ⟨15, -15, 10⟩, .camera ⟨-15, 15, -10⟩ 50 1000⟩

/-- The three lights. -/
def builtLights : List SceneObject :=
  [⟨"Key_Light", ⟨10, -10, 15⟩, .light "SUN" 3 ⟨4/5, 0, 7/10⟩⟩,
   ⟨"Fill_Light", ⟨-5, 5, 8⟩, .light "SUN" (3/2) ⟨1, 0, -1/2⟩⟩,
   ⟨"Rim_Light", ⟨-10, 10, 5⟩, .light "SUN" 2 ⟨6/5, 0, -2⟩⟩]

/-- The document produced by a successful builder run: the objects,
mesh, material, world, camera reference and render settings are fixed;
only the image list, the pre-existing textures and the inherited render
settings depend on the starting document. -/
def builtDoc (script_dir : String) (imgs : List Image) (texs : List Texture)
    (r : RenderSettings) : BlendDoc :=
  { objects := [builtPlane, builtCamera] ++ builtLights
    meshes := [builtMesh]
    materials := [builtMaterial]
    images := imgs
    textures := texs ++ [builtTexture]
    world := ⟨true, ⟨1/20, 1/20, 1/20, 1⟩, 3/10⟩
    sceneCamera := some "Camera"
    render := { r with
      engine := "CYCLES"
      cyclesSamples := 128
      resolutionX := 1920
      resolutionY := 1080
      resolutionPercentage := 100 }
    savedAs := some (script_dir ++ "/mandelbrot_3d_scene.blend") }

/- Real-valued model of the camera's look-at orientation.  The script
computes `direction.to_track_quat('-Z', 'Y').to_euler()` and assigns it
to the camera's rotation; the orientation is analysed here directly as
a rotation matrix over the reals. -/

/-- Cross product on real 3-vectors. -/
def cross3 (a b : Fin 3 → ℝ) : Fin 3 → ℝ :=
  ![a 1 * b 2 - a 2 * b 1, a 2 * b 0 - a 0 * b 2, a 0 * b 1 - a 1 * b 0]

/-- Euclidean norm of a real 3-vector. -/
noncomputable def norm3 (v : Fin 3 → ℝ) : ℝ :=
  Real.sqrt (v 0 ^ 2 + v 1 ^ 2 + v 2 ^ 2)

/-- Normalisation of a real 3-vector. -/
noncomputable def normalize3 (v : Fin 3 → ℝ) : Fin 3 → ℝ :=
  fun i => v i / norm3 v

/-- Dot product on real 3-vectors. -/
def dot3 (a b : Fin 3 → ℝ) : ℝ :=
  a 0 * b 0 + a 1 * b 1 + a 2 * b 2

/-- Local `Z` axis of the track-to frame: the normalised opposite of the
tracking direction (the object's `-Z` axis points along the direction). -/
noncomputable def trackZAxis (d : Fin 3 → ℝ) : Fin 3 → ℝ :=
  normalize3 fun i => -d i

/-- Local `X` axis of the track-to frame: the normalised cross product
of the world vertical with the local `Z` axis. -/
noncomputable def trackXAxis (d : Fin 3 → ℝ) : Fin 3 → ℝ :=
  normalize3 (cross3 ![0, 0, 1] (trackZAxis d))

/-- Local `Y` axis of the track-to frame, completing the right-handed
frame (this is the axis placed toward the world vertical). -/
noncomputable def trackYAxis (d : Fin 3 → ℝ) : Fin 3 → ℝ :=
  cross3 (trackZAxis d) (trackXAxis d)

/-- Modelled from the host routine behind `to_track_quat('-Z', 'Y')`:
the rotation whose local `-Z` axis points along the given direction and
whose local `Y` axis is placed toward the world vertical.  Its columns
are the object's local axes in world coordinates. -/
noncomputable def toTrackNegZY (d : Fin 3 → ℝ) : Matrix (Fin 3) (Fin 3) ℝ :=
  Matrix.of fun i j => ![trackXAxis d, trackYAxis d, trackZAxis d] j i

/-- A document-model direction vector read as a real 3-vector. -/
noncomputable def Vec3.toReal3 (v : Vec3) : Fin 3 → ℝ :=
  ![(v.x : ℝ), (v.y : ℝ), (v.z : ℝ)]

/-- The direction from the camera position to the plane's location, as
computed by `setup_camera`. -/
def cameraDirection : Vec3 := (⟨0, 0, 0⟩ : Vec3).sub ⟨15, -15, 10⟩

/-- Recognises sample-count assignment events of a preview-render trace. -/
def RenderEvent.isSetSamples : RenderEvent → Bool
  | .setSamples _ => true
  | _ => false

/-- Recognises render-to-file events of a preview-render trace. -/
def RenderEvent.isRenderCall : RenderEvent → Bool
  | .renderToFile _ => true
  | _ => false

/-- A concrete starting document resembling the host's default startup
scene (a cube, a camera and a light, one material), used to instantiate
the results below on explicit inputs. -/
def startupDoc : BlendDoc :=
  { objects :=
      [⟨"Cube", ⟨0, 0, 0⟩, .mesh "Cube" []⟩,
       ⟨"Camera", ⟨7, -7, 5⟩, .camera ⟨0, 0, 0⟩ 50 100⟩,
       ⟨"Light", ⟨4, 1, 6⟩, .light "POINT" 1000 ⟨0, 0, 0⟩⟩]
    meshes := [⟨"Cube", 2, 1, []⟩]
    materials := [⟨"Material", true, [], []⟩]
    images := []
    textures := []
    world := ⟨false, ⟨1/2, 1/2, 1/2, 1⟩, 1⟩
    sceneCamera := some "Camera"
    render := ⟨"BLENDER_EEVEE", 128, 64, 1920, 1080, 100, "/tmp/out", "OPEN_EXR", "RGBA"⟩
    savedAs := none }

/- Core lemmas about the two control-flow paths of the builder. -/

/-- An image datablock found by name is the datablock with that name
(an image datablock is determined by its name). -/
theorem find_image_eq (imgs : List Image) (n : String) (img : Image)
    (h : imgs.find? (fun i => i.name == n) = some img) : img = ⟨n⟩ := by
  have h' := List.find?_some h
  cases img with
  | mk iname =>
      simp only [beq_iff_eq] at h'
      exact congrArg Image.mk h'

/-- On a missing input image, the builder stops right after the clear
step, printing the diagnostic. -/
theorem builderMain_missing (fs : HostPath → Bool) (sd : String) (d : BlendDoc)
    (h : fs ⟨sd, IMAGE_FILENAME⟩ = false) :
    builderMain fs sd d =
      (clear_scene d,
       ["Error: Image file not found: " ++ sd ++ "/" ++ IMAGE_FILENAME]) := by
  simp [builderMain, load_image, h]

/-- On a present input image, the builder's run produces the built
document: everything except the image list is independent of the
starting document's objects, meshes and materials. -/
theorem builderMain_present (fs : HostPath → Bool) (sd : String) (d : BlendDoc)
    (h : fs ⟨sd, IMAGE_FILENAME⟩ = true) :
    ∃ imgs : List Image,
      builderMain fs sd d = (builtDoc sd imgs d.textures d.render, []) := by
  cases hfind : d.images.find? (fun i => i.name == IMAGE_FILENAME) with
  | none =>
      refine ⟨d.images ++ [⟨IMAGE_FILENAME⟩], ?_⟩
      simp [builderMain, load_image, clear_scene, HostPath.basename, h, hfind,
        create_heightmap_mesh, setup_camera, setup_lighting, setup_world,
        configure_render_settings, builtDoc, builtPlane, builtCamera,
        builtLights, builtMesh, builtMaterial, builtTexture, builtImage,
        Vec3.sub]
  | some img =>
      obtain rfl : img = ⟨IMAGE_FILENAME⟩ := find_image_eq _ _ _ hfind
      refine ⟨d.images, ?_⟩
      simp [builderMain, load_image, clear_scene, HostPath.basename, h, hfind,
        create_heightmap_mesh, setup_camera, setup_lighting, setup_world,
        configure_render_settings, builtDoc, builtPlane, builtCamera,
        builtLights, builtMesh, builtMaterial, builtTexture, builtImage,
        Vec3.sub]

/- General facts about the 3-vector operations behind the track-to
orientation. -/

/-- The squared norm is the sum of squared components. -/
theorem sq_norm3 (v : Fin 3 → ℝ) :
    norm3 v ^ 2 = v 0 ^ 2 + v 1 ^ 2 + v 2 ^ 2 := by
  unfold norm3
  exact Real.sq_sqrt (by positivity)

/-- Negating a vector does not change its norm. -/
theorem norm3_neg (v : Fin 3 → ℝ) : (norm3 fun i => -v i) = norm3 v := by
  unfold norm3
  norm_num

/-- A normalised vector of nonzero norm is a unit vector. -/
theorem dot3_normalize_self (v : Fin 3 → ℝ) (h : norm3 v ≠ 0) :
    dot3 (normalize3 v) (normalize3 v) = 1 := by
  have hs := sq_norm3 v
  unfold dot3 normalize3
  field_simp
  nlinarith [hs]

/-- Dot products scale through normalisation on the left. -/
theorem dot3_normalize_left (v w : Fin 3 → ℝ) :
    dot3 (normalize3 v) w = dot3 v w / norm3 v := by
  unfold dot3 normalize3
  ring

/-- The cross product is orthogonal to its first factor. -/
theorem dot3_cross_left (a b : Fin 3 → ℝ) : dot3 (cross3 a b) a = 0 := by
  unfold dot3 cross3
  simp only [Matrix.cons_val_zero, Matrix.cons_val_one, Matrix.head_cons,
    Matrix.cons_val_two, Matrix.tail_cons]
  ring

/-- The cross product is orthogonal to its second factor. -/
theorem dot3_cross_right (a b : Fin 3 → ℝ) : dot3 (cross3 a b) b = 0 := by
  unfold dot3 cross3
  simp only [Matrix.cons_val_zero, Matrix.cons_val_one, Matrix.head_cons,
    Matrix.cons_val_two, Matrix.tail_cons]
  ring

/-- Lagrange identity: the squared norm of a cross product. -/
theorem dot3_cross_self (a b : Fin 3 → ℝ) :
    dot3 (cross3 a b) (cross3 a b) = dot3 a a * dot3 b b - dot3 a b ^ 2 := by
  unfold dot3 cross3
  simp only [Matrix.cons_val_zero, Matrix.cons_val_one, Matrix.head_cons,
    Matrix.cons_val_two, Matrix.tail_cons]
  ring

/-- The dot product is symmetric. -/
theorem dot3_comm (a b : Fin 3 → ℝ) : dot3 a b = dot3 b a := by
  unfold dot3
  ring

/-- The track-to matrix is orthogonal whenever the tracking direction
and its cross product with the world vertical are nondegenerate. -/
theorem toTrackNegZY_orthogonal (d : Fin 3 → ℝ)
    (h1 : (norm3 fun i => -d i) ≠ 0)
    (h2 : norm3 (cross3 ![0, 0, 1] (trackZAxis d)) ≠ 0) :
    (toTrackNegZY d).transpose * toTrackNegZY d = 1 := by
  have hxx : dot3 (trackXAxis d) (trackXAxis d) = 1 := dot3_normalize_self _ h2
  have hzz : dot3 (trackZAxis d) (trackZAxis d) = 1 := dot3_normalize_self _ h1
  have hxz : dot3 (trackXAxis d) (trackZAxis d) = 0 := by
    unfold trackXAxis
    rw [dot3_normalize_left, dot3_cross_right]
    simp
  have hyx : dot3 (trackYAxis d) (trackXAxis d) = 0 := dot3_cross_right _ _
  have hyz : dot3 (trackYAxis d) (trackZAxis d) = 0 := dot3_cross_left _ _
  have hyy : dot3 (trackYAxis d) (trackYAxis d) = 1 := by
    unfold trackYAxis
    rw [dot3_cross_self, hzz, hxx, dot3_comm (trackZAxis d) (trackXAxis d), hxz]
    norm_num
  unfold dot3 at hxx hzz hxz hyx hyz hyy
  ext i j
  fin_cases i <;> fin_cases j <;>
    simp [toTrackNegZY, Matrix.mul_apply, Fin.sum_univ_three, Matrix.one_apply] <;>
    first
      | linear_combination hxx
      | linear_combination hyy
      | linear_combination hzz
      | linear_combination hxz
      | linear_combination hyx
      | linear_combination hyz

/-- The track-to matrix sends the object-local `-Z` axis to the
normalised tracking direction: the camera's backward axis points from
the camera to the target. -/
theorem toTrackNegZY_mulVec (d : Fin 3 → ℝ) :
    (toTrackNegZY d).mulVec ![0, 0, -1] = fun i => d i / norm3 d := by
  funext i
  simp [toTrackNegZY, Matrix.mulVec, Matrix.dotProduct, Fin.sum_univ_three,
    trackZAxis, normalize3, norm3_neg]
  ring

/-- Scalar triple product form of the track-to matrix determinant. -/
theorem toTrackNegZY_det_triple (d : Fin 3 → ℝ) :
    (toTrackNegZY d).det =
      dot3 (trackXAxis d) (cross3 (trackYAxis d) (trackZAxis d)) := by
  rw [Matrix.det_fin_three]
  unfold toTrackNegZY dot3 cross3
  simp only [Matrix.of_apply, Matrix.cons_val_zero, Matrix.cons_val_one,
    Matrix.head_cons, Matrix.cons_val_two, Matrix.tail_cons]
  ring

/-- Vector triple product expansion used for the determinant. -/
theorem dot3_triple_expand (z x : Fin 3 → ℝ) :
    dot3 x (cross3 (cross3 z x) z) =
      dot3 z z * dot3 x x - dot3 x z ^ 2 := by
  unfold dot3 cross3
  simp only [Matrix.cons_val_zero, Matrix.cons_val_one, Matrix.head_cons,
    Matrix.cons_val_two, Matrix.tail_cons]
  ring

/-- The track-to matrix has determinant one: it is a proper rotation. -/
theorem toTrackNegZY_det (d : Fin 3 → ℝ)
    (h1 : (norm3 fun i => -d i) ≠ 0)
    (h2 : norm3 (cross3 ![0, 0, 1] (trackZAxis d)) ≠ 0) :
    (toTrackNegZY d).det = 1 := by
  have hxx : dot3 (trackXAxis d) (trackXAxis d) = 1 := dot3_normalize_self _ h2
  have hzz : dot3 (trackZAxis d) (trackZAxis d) = 1 := dot3_normalize_self _ h1
  have hxz : dot3 (trackXAxis d) (trackZAxis d) = 0 := by
    unfold trackXAxis
    rw [dot3_normalize_left, dot3_cross_right]
    simp
  have hd := dot3_triple_expand (trackZAxis d) (trackXAxis d)
  rw [toTrackNegZY_det_triple]
  unfold trackYAxis
  rw [hd, hzz, hxx, hxz]
  norm_num

/-- The tracking direction the builder's camera uses, over the reals. -/
theorem cameraDirection_toReal3 :
    cameraDirection.toReal3 = ![(-15 : ℝ), 15, -10] := by
  funext i
  fin_cases i <;>
    simp [cameraDirection, Vec3.toReal3, Vec3.sub]

/-- The camera's tracking direction has nonzero norm. -/
theorem cameraDirection_norm_ne_zero :
    (norm3 fun i => -((![(-15 : ℝ), 15, -10]) i)) ≠ 0 := by
  unfold norm3
  rw [Real.sqrt_ne_zero']
  norm_num

/-- The local `Z` axis of the camera's track-to frame. -/
theorem camera_zAxis :
    trackZAxis ![(-15 : ℝ), 15, -10] =
      ![15 / Real.sqrt 550, -15 / Real.sqrt 550, 10 / Real.sqrt 550] := by
  funext i
  fin_cases i <;>
    simp [trackZAxis, normalize3, norm3] <;> norm_num

/-- The unnormalised local `X` axis of the camera's track-to frame. -/
theorem camera_crossX :
    cross3 ![0, 0, 1] ![15 / Real.sqrt 550, -15 / Real.sqrt 550, 10 / Real.sqrt 550] =
      ![15 / Real.sqrt 550, 15 / Real.sqrt 550, 0] := by
  funext i
  fin_cases i <;> simp [cross3] <;> ring

/-- The camera's track-to frame is nondegenerate: the direction is not
vertical, so its cross product with the world vertical has nonzero
norm. -/
theorem camera_cross_norm_ne_zero :
    norm3 (cross3 ![0, 0, 1] (trackZAxis ![(-15 : ℝ), 15, -10])) ≠ 0 := by
  rw [camera_zAxis, camera_crossX]
  unfold norm3
  rw [Real.sqrt_ne_zero']
  have hsq : ((15 : ℝ) / Real.sqrt 550) ^ 2 = 225 / 550 := by
    rw [div_pow, Real.sq_sqrt (by norm_num)]
    norm_num
  simp only [Matrix.cons_val_zero, Matrix.cons_val_one, Matrix.head_cons,
    Matrix.cons_val_two, Matrix.tail_cons, hsq]
  norm_num

/-- The norm of the camera's tracking direction is positive. -/
theorem cameraDirection_norm_pos :
    0 < (norm3 ![(-15 : ℝ), 15, -10])⁻¹ := by
  rw [inv_pos]
  unfold norm3
  apply Real.sqrt_pos.mpr
  norm_num

/-- C1: for every run of the scene builder where the input image file
does not exist at the configured path, the builder reports the error
via a printed message and returns early, performing no mesh, material,
camera or light creation and no save: the final document is exactly the
cleared document. -/
theorem builder_missing_image_reports_and_creates_nothing
    (fs : HostPath → Bool) (sd : String) (d : BlendDoc)
    (h : fs ⟨sd, IMAGE_FILENAME⟩ = false) :
    (builderMain fs sd d).2 =
      ["Error: Image file not found: " ++ sd ++ "/" ++ IMAGE_FILENAME] ∧
    (builderMain fs sd d).1 = clear_scene d ∧
    (builderMain fs sd d).1.objects = [] ∧
    (builderMain fs sd d).1.meshes = [] ∧
    (builderMain fs sd d).1.materials = [] ∧
    (builderMain fs sd d).1.meshObjectCount = 0 ∧
    (builderMain fs sd d).1.cameraObjectCount = 0 ∧
    (builderMain fs sd d).1.lightObjectCount = 0 ∧
    (builderMain fs sd d).1.savedAs = d.savedAs := by
  rw [builderMain_missing fs sd d h]
  exact ⟨rfl, rfl, rfl, rfl, rfl, rfl, rfl, rfl, rfl⟩

/-- Witness: the missing-image result at a concrete filesystem, script
directory and starting document. -/
theorem builder_missing_image_witness :
    (fun _ : HostPath => false) ⟨"scripts", IMAGE_FILENAME⟩ = false ∧
    ((builderMain (fun _ => false) "scripts" startupDoc).2 =
        ["Error: Image file not found: " ++ "scripts" ++ "/" ++ IMAGE_FILENAME] ∧
      (builderMain (fun _ => false) "scripts" startupDoc).1 = clear_scene startupDoc ∧
      (builderMain (fun _ => false) "scripts" startupDoc).1.objects = [] ∧
      (builderMain (fun _ => false) "scripts" startupDoc).1.meshes = [] ∧
      (builderMain (fun _ => false) "scripts" startupDoc).1.materials = [] ∧
      (builderMain (fun _ => false) "scripts" startupDoc).1.meshObjectCount = 0 ∧
      (builderMain (fun _ => false) "scripts" startupDoc).1.cameraObjectCount = 0 ∧
      (builderMain (fun _ => false) "scripts" startupDoc).1.lightObjectCount = 0 ∧
      (builderMain (fun _ => false) "scripts" startupDoc).1.savedAs = startupDoc.savedAs) :=
  ⟨rfl, builder_missing_image_reports_and_creates_nothing
    (fun _ => false) "scripts" startupDoc rfl⟩

/-- C10: the missing-image error path is not atomic: the clear step runs
before the existence check, so with a missing image the final document
is the cleared document — objects, meshes and materials are already
gone — and differs from the (populated) starting document. -/
theorem clear_precedes_existence_check
    (fs : HostPath → Bool) (sd : String) (d : BlendDoc)
    (h : fs ⟨sd, IMAGE_FILENAME⟩ = false) (hpop : d.objects ≠ []) :
    (builderMain fs sd d).1 = clear_scene d ∧
    (builderMain fs sd d).1.objects = [] ∧
    (builderMain fs sd d).1.meshes = [] ∧
    (builderMain fs sd d).1.materials = [] ∧
    (builderMain fs sd d).1 ≠ d := by
  rw [builderMain_missing fs sd d h]
  refine ⟨rfl, rfl, rfl, rfl, ?_⟩
  intro hne
  have h2 := congrArg BlendDoc.objects hne
  simp [clear_scene] at h2
  exact hpop h2

/-- Witness: the non-atomic clear at a concrete populated document. -/
theorem clear_precedes_existence_check_witness :
    (fun _ : HostPath => false) ⟨"scripts", IMAGE_FILENAME⟩ = false ∧
    startupDoc.objects ≠ [] ∧
    ((builderMain (fun _ => false) "scripts" startupDoc).1 = clear_scene startupDoc ∧
      (builderMain (fun _ => false) "scripts" startupDoc).1.objects = [] ∧
      (builderMain (fun _ => false) "scripts" startupDoc).1.meshes = [] ∧
      (builderMain (fun _ => false) "scripts" startupDoc).1.materials = [] ∧
      (builderMain (fun _ => false) "scripts" startupDoc).1 ≠ startupDoc) :=
  ⟨rfl, by simp [startupDoc],
    clear_precedes_existence_check (fun _ => false) "scripts" startupDoc rfl
      (by simp [startupDoc])⟩

/-- Each pass of the subdivision loop doubles the grid side. -/
theorem subdivideLoop_side (n : Nat) (m : MeshData) :
    (subdivideLoop n m).side = 2 ^ n * m.side := by
  induction n generalizing m with
  | zero => simp [subdivideLoop]
  | succ k ih =>
      rw [subdivideLoop, ih]
      simp [meshSubdivide, pow_succ]
      ring

/-- A uniform grid mesh with `side` quads per side has `(side + 1) ^ 2`
vertices. -/
theorem MeshData.vertices_length (m : MeshData) :
    m.vertices.length = (m.side + 1) ^ 2 := by
  unfold MeshData.vertices
  simp only [List.length_flatMap, Function.comp_def, List.length_map,
    List.length_range]
  rw [List.map_const', List.sum_replicate, smul_eq_mul, List.length_range, sq]

/-- C2: for every subdivision level `N`, the plane mesh created by
`create_heightmap_mesh` — a single quad uniformly edge-subdivided `N`
times with everything selected — is appended to the document's meshes
and has exactly `(2 ^ N + 1) ^ 2` vertices. -/
theorem subdivision_vertex_count_formula (image : Image) (n : Nat)
    (ds ps : ℚ) (d : BlendDoc) :
    ∃ m : MeshData,
      (create_heightmap_mesh image n ds ps d).2.meshes = d.meshes ++ [m] ∧
      m.vertices.length = (2 ^ n + 1) ^ 2 := by
  refine ⟨_, rfl, ?_⟩
  rw [MeshData.vertices_length]
  show ((subdivideLoop n ⟨"Plane", ps, 1, []⟩).side + 1) ^ 2 = (2 ^ n + 1) ^ 2
  rw [subdivideLoop_side]
  norm_num

/-- C3: the builder's camera sits at the fixed offset `(15, -15, 10)`,
its tracking direction is the vector from the camera position to the
target at the origin, namely `(-15, 15, -10)`, the associated track-to
orientation is a proper rotation (orthogonal with determinant one) that
sends the camera-local backward axis `-Z` to the normalised
camera-to-target vector — a positive multiple of that vector — and the
camera is assigned as the scene's active camera. -/
theorem camera_look_at_orientation (fs : HostPath → Bool) (sd : String)
    (d : BlendDoc) (h : fs ⟨sd, IMAGE_FILENAME⟩ = true) :
    builtCamera ∈ (builderMain fs sd d).1.objects ∧
    builtCamera.location = ⟨15, -15, 10⟩ ∧
    builtCamera.data = .camera cameraDirection 50 1000 ∧
    cameraDirection = ⟨-15, 15, -10⟩ ∧
    (builderMain fs sd d).1.sceneCamera = some "Camera" ∧
    (toTrackNegZY cameraDirection.toReal3).transpose *
      toTrackNegZY cameraDirection.toReal3 = 1 ∧
    (toTrackNegZY cameraDirection.toReal3).det = 1 ∧
    (toTrackNegZY cameraDirection.toReal3).mulVec ![0, 0, -1] =
      (norm3 cameraDirection.toReal3)⁻¹ • cameraDirection.toReal3 ∧
    0 < (norm3 cameraDirection.toReal3)⁻¹ := by
  obtain ⟨imgs, heq⟩ := builderMain_present fs sd d h
  rw [heq]
  have hdir : cameraDirection = ⟨-15, 15, -10⟩ := by
    unfold cameraDirection Vec3.sub
    norm_num
  refine ⟨?_, rfl, ?_, hdir, rfl, ?_, ?_, ?_, ?_⟩
  · simp [builtDoc]
  · rw [hdir]
    rfl
  · rw [cameraDirection_toReal3]
    exact toTrackNegZY_orthogonal _ cameraDirection_norm_ne_zero
      camera_cross_norm_ne_zero
  · rw [cameraDirection_toReal3]
    exact toTrackNegZY_det _ cameraDirection_norm_ne_zero
      camera_cross_norm_ne_zero
  · rw [cameraDirection_toReal3, toTrackNegZY_mulVec]
    funext i
    simp only [Pi.smul_apply, smul_eq_mul]
    rw [div_eq_mul_inv, mul_comm]
  · rw [cameraDirection_toReal3]
    exact cameraDirection_norm_pos

/-- Witness: the camera look-at result at a concrete filesystem, script
directory and starting document. -/
theorem camera_look_at_orientation_witness :
    (fun _ : HostPath => true) ⟨"scripts", IMAGE_FILENAME⟩ = true ∧
    (builtCamera ∈ (builderMain (fun _ => true) "scripts" startupDoc).1.objects ∧
      builtCamera.location = ⟨15, -15, 10⟩ ∧
      builtCamera.data = .camera cameraDirection 50 1000 ∧
      cameraDirection = ⟨-15, 15, -10⟩ ∧
      (builderMain (fun _ => true) "scripts" startupDoc).1.sceneCamera = some "Camera" ∧
      (toTrackNegZY cameraDirection.toReal3).transpose *
        toTrackNegZY cameraDirection.toReal3 = 1 ∧
      (toTrackNegZY cameraDirection.toReal3).det = 1 ∧
      (toTrackNegZY cameraDirection.toReal3).mulVec ![0, 0, -1] =
        (norm3 cameraDirection.toReal3)⁻¹ • cameraDirection.toReal3 ∧
      0 < (norm3 cameraDirection.toReal3)⁻¹) :=
  ⟨rfl, camera_look_at_orientation (fun _ => true) "scripts" startupDoc rfl⟩

/-- C4: with the input image present, the build completes (the document
is saved) and the resulting document contains exactly one mesh object,
exactly one camera, exactly three lights, and its world entry carries
the configured background. -/
theorem build_produces_expected_population (fs : HostPath → Bool)
    (sd : String) (d : BlendDoc) (h : fs ⟨sd, IMAGE_FILENAME⟩ = true) :
    (builderMain fs sd d).1.meshObjectCount = 1 ∧
    (builderMain fs sd d).1.cameraObjectCount = 1 ∧
    (builderMain fs sd d).1.lightObjectCount = 3 ∧
    (builderMain fs sd d).1.world = ⟨true, ⟨1/20, 1/20, 1/20, 1⟩, 3/10⟩ ∧
    (builderMain fs sd d).1.savedAs = some (sd ++ "/mandelbrot_3d_scene.blend") := by
  obtain ⟨imgs, heq⟩ := builderMain_present fs sd d h
  rw [heq]
  exact ⟨rfl, rfl, rfl, rfl, rfl⟩

/-- Witness: the object population at a concrete input. -/
theorem build_produces_expected_population_witness :
    (fun _ : HostPath => true) ⟨"scripts", IMAGE_FILENAME⟩ = true ∧
    ((builderMain (fun _ => true) "scripts" startupDoc).1.meshObjectCount = 1 ∧
      (builderMain (fun _ => true) "scripts" startupDoc).1.cameraObjectCount = 1 ∧
      (builderMain (fun _ => true) "scripts" startupDoc).1.lightObjectCount = 3 ∧
      (builderMain (fun _ => true) "scripts" startupDoc).1.world =
        ⟨true, ⟨1/20, 1/20, 1/20, 1⟩, 3/10⟩ ∧
      (builderMain (fun _ => true) "scripts" startupDoc).1.savedAs =
        some ("scripts" ++ "/mandelbrot_3d_scene.blend")) :=
  ⟨rfl, build_produces_expected_population (fun _ => true) "scripts" startupDoc rfl⟩

/-- C5: running the build on any two starting documents — populated or
empty — yields the same final object count (five objects), and the same
mesh and material datablocks: the initial clear step makes
clear-then-rebuild idempotent in object count. -/
theorem rebuild_object_count_idempotent (fs : HostPath → Bool)
    (sd : String) (d1 d2 : BlendDoc) (h : fs ⟨sd, IMAGE_FILENAME⟩ = true) :
    (builderMain fs sd d1).1.objects.length =
      (builderMain fs sd d2).1.objects.length ∧
    (builderMain fs sd d1).1.objects.length = 5 ∧
    (builderMain fs sd d1).1.meshes = (builderMain fs sd d2).1.meshes ∧
    (builderMain fs sd d1).1.materials = (builderMain fs sd d2).1.materials := by
  obtain ⟨i1, e1⟩ := builderMain_present fs sd d1 h
  obtain ⟨i2, e2⟩ := builderMain_present fs sd d2 h
  rw [e1, e2]
  exact ⟨rfl, rfl, rfl, rfl⟩

/-- Witness: idempotent rebuild comparing a populated and an empty
starting document. -/
theorem rebuild_object_count_idempotent_witness :
    (fun _ : HostPath => true) ⟨"scripts", IMAGE_FILENAME⟩ = true ∧
    ((builderMain (fun _ => true) "scripts" startupDoc).1.objects.length =
        (builderMain (fun _ => true) "scripts" (clear_scene startupDoc)).1.objects.length ∧
      (builderMain (fun _ => true) "scripts" startupDoc).1.objects.length = 5 ∧
      (builderMain (fun _ => true) "scripts" startupDoc).1.meshes =
        (builderMain (fun _ => true) "scripts" (clear_scene startupDoc)).1.meshes ∧
      (builderMain (fun _ => true) "scripts" startupDoc).1.materials =
        (builderMain (fun _ => true) "scripts" (clear_scene startupDoc)).1.materials) :=
  ⟨rfl, rebuild_object_count_idempotent (fun _ => true) "scripts" startupDoc
    (clear_scene startupDoc) rfl⟩

/-- C6: the displacement modifier attached to the plane has strength
equal to the configured constant, mid-level exactly zero, UV texture
coordinates, and a texture wrapping the same image used by the
material's image-texture (base color) node. -/
theorem displacement_modifier_wiring (fs : HostPath → Bool)
    (sd : String) (d : BlendDoc) (h : fs ⟨sd, IMAGE_FILENAME⟩ = true) :
    ∃ plane ∈ (builderMain fs sd d).1.objects,
      plane.name = "Mandelbrot_Heightmap" ∧
      plane.data = .mesh "Plane"
        [.subsurf "Subdivision" 2 3,
         .displace "Displace" DISPLACEMENT_STRENGTH 0 (some builtTexture) "UV"] ∧
      builtTexture.ttype = "IMAGE" ∧
      builtTexture.image = some builtImage ∧
      builtTexture ∈ (builderMain fs sd d).1.textures ∧
      ∃ mat ∈ (builderMain fs sd d).1.materials, ∃ nd ∈ mat.nodes,
        nd.ntype = "ShaderNodeTexImage" ∧ nd.image = builtTexture.image := by
  obtain ⟨imgs, heq⟩ := builderMain_present fs sd d h
  rw [heq]
  refine ⟨builtPlane, ?_, rfl, rfl, rfl, rfl, ?_, builtMaterial, ?_,
    ⟨"ShaderNodeTexImage", (-400, 0), some builtImage, []⟩, ?_, rfl, rfl⟩
  · simp [builtDoc]
  · simp [builtDoc]
  · simp [builtDoc]
  · simp [builtMaterial]

/-- Witness: the displacement modifier wiring at a concrete input. -/
theorem displacement_modifier_wiring_witness :
    (fun _ : HostPath => true) ⟨"scripts", IMAGE_FILENAME⟩ = true ∧
    (∃ plane ∈ (builderMain (fun _ => true) "scripts" startupDoc).1.objects,
      plane.name = "Mandelbrot_Heightmap" ∧
      plane.data = .mesh "Plane"
        [.subsurf "Subdivision" 2 3,
         .displace "Displace" DISPLACEMENT_STRENGTH 0 (some builtTexture) "UV"] ∧
      builtTexture.ttype = "IMAGE" ∧
      builtTexture.image = some builtImage ∧
      builtTexture ∈ (builderMain (fun _ => true) "scripts" startupDoc).1.textures ∧
      ∃ mat ∈ (builderMain (fun _ => true) "scripts" startupDoc).1.materials,
        ∃ nd ∈ mat.nodes,
          nd.ntype = "ShaderNodeTexImage" ∧ nd.image = builtTexture.image) :=
  ⟨rfl, displacement_modifier_wiring (fun _ => true) "scripts" startupDoc rfl⟩

/-- C7 (amended): every preview-render run sets the output file path to
the configured location, sets PNG output with RGB color mode, and
performs exactly one synchronous render call; a sample count is chosen
only when the scene's engine is Cycles (64 samples) — for any other
engine no sample-count assignment is performed and the scene's existing
sample settings are left unchanged. -/
theorem preview_sets_output_and_renders_once (sd : String) (d : BlendDoc) :
    (render_preview sd d).1.render.filepath = sd ++ "/" ++ OUTPUT_FILENAME ∧
    (render_preview sd d).1.render.fileFormat = "PNG" ∧
    (render_preview sd d).1.render.colorMode = "RGB" ∧
    ((render_preview sd d).2.filter RenderEvent.isRenderCall).length = 1 ∧
    (render_preview sd d).1.render.cyclesSamples =
      (if d.render.engine = "CYCLES" then RENDER_SAMPLES
       else d.render.cyclesSamples) ∧
    (render_preview sd d).1.render.eeveeSamples = d.render.eeveeSamples ∧
    (render_preview sd d).2.filter RenderEvent.isSetSamples =
      (if d.render.engine = "CYCLES" then [RenderEvent.setSamples RENDER_SAMPLES]
       else []) := by
  by_cases hc : d.render.engine = "CYCLES"
  · simp [render_preview, hc, RenderEvent.isRenderCall, RenderEvent.isSetSamples]
  · have hbeq : (d.render.engine == "CYCLES") = false := by
      simp [hc]
    simp [render_preview, hc, hbeq, RenderEvent.isRenderCall,
      RenderEvent.isSetSamples]

/-- C7 counterexample: on a scene whose render engine is not Cycles,
the preview renderer chooses no sample count at all — its trace holds
no sample assignment and both sample settings are left exactly as they
were — refuting the reading that an appropriate sample count is chosen
whatever the engine is. -/
theorem preview_no_sample_choice_for_eevee :
    startupDoc.render.engine = "BLENDER_EEVEE" ∧
    (render_preview "scripts" startupDoc).2.filter RenderEvent.isSetSamples = [] ∧
    (render_preview "scripts" startupDoc).1.render.cyclesSamples =
      startupDoc.render.cyclesSamples ∧
    (render_preview "scripts" startupDoc).1.render.eeveeSamples =
      startupDoc.render.eeveeSamples :=
  ⟨rfl, rfl, rfl, rfl⟩

/-- C8: rendering a preview of the document the scene builder saved
performs its single render call with the configured output path, PNG
format, RGB color mode and the 1920x1080 resolution configured by the
builder (the render script itself sets only path, format and color
mode). -/
theorem preview_of_built_scene_settings (fs : HostPath → Bool)
    (sd sd2 : String) (d : BlendDoc) (h : fs ⟨sd, IMAGE_FILENAME⟩ = true) :
    ∃ snap : RenderSettings,
      (render_preview sd2 (builderMain fs sd d).1).2 =
        [RenderEvent.setSamples RENDER_SAMPLES, RenderEvent.renderToFile snap] ∧
      snap.filepath = sd2 ++ "/" ++ OUTPUT_FILENAME ∧
      snap.fileFormat = "PNG" ∧
      snap.colorMode = "RGB" ∧
      snap.resolutionX = 1920 ∧
      snap.resolutionY = 1080 := by
  obtain ⟨imgs, heq⟩ := builderMain_present fs sd d h
  rw [heq]
  exact ⟨⟨"CYCLES", RENDER_SAMPLES, d.render.eeveeSamples, 1920, 1080, 100,
    sd2 ++ "/" ++ OUTPUT_FILENAME, "PNG", "RGB"⟩, rfl, rfl, rfl, rfl, rfl, rfl⟩

/-- Witness: the preview-of-built-scene settings at a concrete input. -/
theorem preview_of_built_scene_settings_witness :
    (fun _ : HostPath => true) ⟨"scripts", IMAGE_FILENAME⟩ = true ∧
    (∃ snap : RenderSettings,
      (render_preview "scripts"
          (builderMain (fun _ => true) "scripts" startupDoc).1).2 =
        [RenderEvent.setSamples RENDER_SAMPLES, RenderEvent.renderToFile snap] ∧
      snap.filepath = "scripts" ++ "/" ++ OUTPUT_FILENAME ∧
      snap.fileFormat = "PNG" ∧
      snap.colorMode = "RGB" ∧
      snap.resolutionX = 1920 ∧
      snap.resolutionY = 1080) :=
  ⟨rfl, preview_of_built_scene_settings (fun _ => true) "scripts" "scripts"
    startupDoc rfl⟩

/-- C9: in the shader graph the builder creates, the image-texture
node's Color output is linked to the principled node's Base Color input
and the principled node's BSDF output to the material surface output —
these are the only two links — while the color-ramp node exists in the
graph with no link touching it. -/
theorem shader_graph_wiring (fs : HostPath → Bool) (sd : String)
    (d : BlendDoc) (h : fs ⟨sd, IMAGE_FILENAME⟩ = true) :
    (builderMain fs sd d).1.materials = [builtMaterial] ∧
    builtMaterial.links =
      [⟨"ShaderNodeTexImage", "Color", "ShaderNodeBsdfPrincipled", "Base Color"⟩,
       ⟨"ShaderNodeBsdfPrincipled", "BSDF", "ShaderNodeOutputMaterial", "Surface"⟩] ∧
    (∃ nd ∈ builtMaterial.nodes, nd.ntype = "ShaderNodeValToRGB") ∧
    (∀ l ∈ builtMaterial.links,
      l.fromNode ≠ "ShaderNodeValToRGB" ∧ l.toNode ≠ "ShaderNodeValToRGB") := by
  obtain ⟨imgs, heq⟩ := builderMain_present fs sd d h
  rw [heq]
  refine ⟨rfl, rfl, ⟨⟨"ShaderNodeValToRGB", (-200, -300), none, []⟩, ?_, rfl⟩, ?_⟩
  · simp [builtMaterial]
  · decide

/-- Witness: the shader-graph wiring at a concrete input. -/
theorem shader_graph_wiring_witness :
    (fun _ : HostPath => true) ⟨"scripts", IMAGE_FILENAME⟩ = true ∧
    ((builderMain (fun _ => true) "scripts" startupDoc).1.materials = [builtMaterial] ∧
      builtMaterial.links =
        [⟨"ShaderNodeTexImage", "Color", "ShaderNodeBsdfPrincipled", "Base Color"⟩,
         ⟨"ShaderNodeBsdfPrincipled", "BSDF", "ShaderNodeOutputMaterial", "Surface"⟩] ∧
      (∃ nd ∈ builtMaterial.nodes, nd.ntype = "ShaderNodeValToRGB") ∧
      (∀ l ∈ builtMaterial.links,
        l.fromNode ≠ "ShaderNodeValToRGB" ∧ l.toNode ≠ "ShaderNodeValToRGB")) :=
  ⟨rfl, shader_graph_wiring (fun _ => true) "scripts" startupDoc rfl⟩
